import Mathlib

/-!
Verification of the RapBot OHLA web-scraper crawl state machine.

The definitions below are a shallow embedding of the Python sources
`Program/WebScrapers/OHLA/WebScraperStageThree.py`,
`Program/WebScrapers/OHLA/WebScraperThree.py`,
`Program/WebScrapers/OHLA/WebScraperTwo.py` and
`Program/WebScrapers/OHLA/WebScraper.py`:

* the `ScraperStatus` / `TranscriptionStatus` stage enums with their
  overridden equality methods;
* the checkpoint store (`json.dump` with `EnumEncoder`, `json.load` with
  the `enum_decoder` object hook, and the string-key to int-key
  conversion of `load_web_scraper_target_urls`);
* the resume-point selection of `WebScraper.py.__main__` and
  `WebScraperTwo.get_target_artist_to_scrape`;
* `remove_artist_from_metadata` and the `init_artists_storage_dirs`
  retry loop of `WebScraperThree.py`;
* the per-album song pass of `WebScraperStageThree.main`;
* the file-operation trace of `write_target_artists_to_json` /
  `update_artist_metadata_on_hdd`.

Python dictionaries are modelled as ordered association lists, Python
exceptions as an `Except`/`Option` layer, and the filesystem / network
as explicit oracles.
-/

namespace RapBot

/-! ### The stage enums

`ScraperStatus` (WebScraperStageThree.py lines 21-40 and
WebScraperThree.py lines 24-67: both classes declare the same five
members with the same values) and `TranscriptionStatus`
(WebScraperThree.py lines 122-137). -/

inductive ScraperStatus where
  | stage_zero : ScraperStatus
  | stage_one : ScraperStatus
  | stage_two : ScraperStatus
  | stage_three : ScraperStatus
  | stage_four : ScraperStatus
deriving DecidableEq, Repr

/-- The `.value` of each `ScraperStatus` member. -/
def ScraperStatus.value : ScraperStatus → Int
  | .stage_zero => 0
  | .stage_one => 1
  | .stage_two => 2
  | .stage_three => 3
  | .stage_four => 4

/-- The Python member name, as in `ScraperStatus.stage_zero.name`. -/
def ScraperStatus.memberName : ScraperStatus → String
  | .stage_zero => "stage_zero"
  | .stage_one => "stage_one"
  | .stage_two => "stage_two"
  | .stage_three => "stage_three"
  | .stage_four => "stage_four"

/-- Python `str(member)`, which prints as `"ScraperStatus.<member>"`
(used by `EnumEncoder.default`). -/
def ScraperStatus.pyStr (s : ScraperStatus) : String :=
  "ScraperStatus." ++ s.memberName

/-- Model of `getattr(ScraperStatus, member)` on a member name: the
member when the name is one of the five members, failure (Python
`AttributeError`) otherwise. -/
def ScraperStatus.fromName? : String → Option ScraperStatus
  | "stage_zero" => some .stage_zero
  | "stage_one" => some .stage_one
  | "stage_two" => some .stage_two
  | "stage_three" => some .stage_three
  | "stage_four" => some .stage_four
  | _ => none

/-- Model of the `ScraperStatus(value)` member lookup on an integer:
the member with that value, failure (Python `ValueError`) otherwise. -/
def ScraperStatus.ofValue? (n : Int) : Option ScraperStatus :=
  if n = 0 then some .stage_zero
  else if n = 1 then some .stage_one
  else if n = 2 then some .stage_two
  else if n = 3 then some .stage_three
  else if n = 4 then some .stage_four
  else none

inductive TranscriptionStatus where
  | stage_zero : TranscriptionStatus
  | stage_one : TranscriptionStatus
  | stage_two : TranscriptionStatus
  | stage_three : TranscriptionStatus
deriving DecidableEq, Repr

/-- The `.value` of each `TranscriptionStatus` member. -/
def TranscriptionStatus.value : TranscriptionStatus → Int
  | .stage_zero => 0
  | .stage_one => 1
  | .stage_two => 2
  | .stage_three => 3

/-! ### Python `str(k)` / `int(s)` for the checkpoint's integer keys

`json.dump` stringifies integer dictionary keys with `str(k)`;
`load_web_scraper_target_urls` converts them back with `int(k)`
(WebScraperStageThree.py line 113).  Both are modelled at the decimal
digit level. -/

/-- The character for one decimal digit (`d` below 10). -/
def digitChar (d : Nat) : Char :=
  Char.ofNat (Char.toNat '0' + d)

/-- The decimal digit denoted by a character, if any. -/
def digitOfChar? (c : Char) : Option Nat :=
  if Char.toNat '0' ≤ Char.toNat c ∧ Char.toNat c ≤ Char.toNat '9' then
    some (Char.toNat c - Char.toNat '0')
  else none

/-- Little-endian decimal digits, structurally recursive on a fuel
argument so that the kernel can evaluate it (`n` itself is always
enough fuel, see `natDigitsLEAux_fuel`). -/
def natDigitsLEAux : Nat → Nat → List Nat
  | _, 0 => []
  | 0, _ + 1 => []
  | f + 1, n + 1 => ((n + 1) % 10) :: natDigitsLEAux f ((n + 1) / 10)

/-- Little-endian list of decimal digits of `n` (empty for `0`). -/
def natDigitsLE (n : Nat) : List Nat :=
  natDigitsLEAux n n

/-- Big-endian decimal digit characters of `n` (empty for `0`). -/
def natCharsBE (n : Nat) : List Char :=
  (natDigitsLE n).reverse.map digitChar

/-- Model of Python `str(n)` for a natural number. -/
def pyStrOfNat (n : Nat) : String :=
  if n = 0 then "0" else String.mk (natCharsBE n)

/-- Model of Python `str(i)` for an integer. -/
def pyStrOfInt (i : Int) : String :=
  if i < 0 then String.mk ('-' :: natCharsBE i.natAbs) else pyStrOfNat i.toNat

/-- Fold a big-endian run of digit characters onto an accumulator;
`none` as soon as a character is not a digit. -/
def parseDigitsAcc (acc : Nat) : List Char → Option Nat
  | [] => some acc
  | c :: cs =>
    match digitOfChar? c with
    | some d => parseDigitsAcc (acc * 10 + d) cs
    | none => none

/-- Model of Python `int(s)` on an unsigned decimal string: at least
one character, all digits. -/
def pyNatOfChars? : List Char → Option Nat
  | [] => none
  | c :: cs => parseDigitsAcc 0 (c :: cs)

/-- Signed-decimal parsing on the character list. -/
def pyIntOfChars? : List Char → Option Int
  | [] => none
  | c :: cs =>
    if c = '-' then
      match pyNatOfChars? cs with
      | some n => some (-(n : Int))
      | none => none
    else
      match pyNatOfChars? (c :: cs) with
      | some n => some ((n : Int))
      | none => none

/-- Model of Python `int(s)` on a canonical (optionally `-`-signed)
decimal string, `none` standing for `ValueError`. -/
def pyIntOfStr? (s : String) : Option Int :=
  pyIntOfChars? s.data

/-! ### Python values and JSON documents

`PyVal` is the universe of Python values this program serializes:
`None`, booleans, integers, strings, tuples (the resume markers),
lists, `ScraperStatus` members, string-keyed (ordered) dicts and
integer-keyed (ordered) dicts.  `Json` is the on-disk document. -/

mutual
inductive PyVal where
  | pnone : PyVal
  | pbool (b : Bool) : PyVal
  | pint (n : Int) : PyVal
  | pstr (s : String) : PyVal
  | ptuple (xs : PyList) : PyVal
  | plist (xs : PyList) : PyVal
  | penum (s : ScraperStatus) : PyVal
  | pdictS (es : PyFieldsS) : PyVal
  | pdictI (es : PyFieldsI) : PyVal
deriving DecidableEq, Repr

inductive PyList where
  | nil : PyList
  | cons (v : PyVal) (rest : PyList) : PyList
deriving DecidableEq, Repr

inductive PyFieldsS where
  | nil : PyFieldsS
  | cons (k : String) (v : PyVal) (rest : PyFieldsS) : PyFieldsS
deriving DecidableEq, Repr

inductive PyFieldsI where
  | nil : PyFieldsI
  | cons (k : Int) (v : PyVal) (rest : PyFieldsI) : PyFieldsI
deriving DecidableEq, Repr
end

mutual
inductive Json where
  | jnull : Json
  | jbool (b : Bool) : Json
  | jnum (n : Int) : Json
  | jstr (s : String) : Json
  | jarr (xs : JsonList) : Json
  | jobj (fs : JsonFields) : Json
deriving DecidableEq, Repr

inductive JsonList where
  | nil : JsonList
  | cons (j : Json) (rest : JsonList) : JsonList
deriving DecidableEq, Repr

inductive JsonFields where
  | nil : JsonFields
  | cons (k : String) (j : Json) (rest : JsonFields) : JsonFields
deriving DecidableEq, Repr
end

/-- First value stored under a key (the dict had no duplicate keys, so
this is the dict lookup `d[k]` / `k in d`). -/
def PyFieldsS.lookup? : PyFieldsS → String → Option PyVal
  | .nil, _ => none
  | .cons k v rest, key => if k = key then some v else rest.lookup? key

def PyFieldsS.hasKey (es : PyFieldsS) (k : String) : Bool :=
  (es.lookup? k).isSome

/-! ### The checkpoint save: `json.dump(..., cls=EnumEncoder)`

WebScraperStageThree.py lines 53-63 (`EnumEncoder.default` maps a
`ScraperStatus` member to `{"__enum__": str(obj)}`) and the standard
`json.dump` behaviour: tuples and lists both serialize to arrays, and
integer dict keys are stringified with `str(k)`. -/

mutual
def PyVal.encode : PyVal → Json
  | .pnone => .jnull
  | .pbool b => .jbool b
  | .pint n => .jnum n
  | .pstr s => .jstr s
  | .ptuple xs => .jarr xs.encode
  | .plist xs => .jarr xs.encode
  | .penum s => .jobj (.cons "__enum__" (.jstr s.pyStr) .nil)
  | .pdictS es => .jobj es.encode
  | .pdictI es => .jobj es.encode

def PyList.encode : PyList → JsonList
  | .nil => .nil
  | .cons v rest => .cons v.encode rest.encode

def PyFieldsS.encode : PyFieldsS → JsonFields
  | .nil => .nil
  | .cons k v rest => .cons k v.encode rest.encode

def PyFieldsI.encode : PyFieldsI → JsonFields
  | .nil => .nil
  | .cons k v rest => .cons (pyStrOfInt k) v.encode rest.encode
end

/-! ### The checkpoint load: `json.load(..., object_hook=enum_decoder)` -/

deriving instance DecidableEq for Except

/-- The Python exceptions the embedded code paths can raise. -/
inductive PyErr where
  | valueError : PyErr
  | attributeError : PyErr
  | typeError : PyErr
  | keyError : PyErr
  | indexError : PyErr
deriving DecidableEq, Repr

/-- Model of Python `s.split(".")`. -/
def splitDotAux : List Char → List Char → List String
  | [], cur => [String.mk cur.reverse]
  | c :: rest, cur =>
    if c = '.' then String.mk cur.reverse :: splitDotAux rest []
    else splitDotAux rest (c :: cur)

def splitDot (s : String) : List String :=
  splitDotAux s.data []

/-- `enum_decoder` (WebScraperStageThree.py lines 66-77), the
`object_hook` applied to every decoded JSON object: a dict carrying an
`"__enum__"` key is replaced by the named `ScraperStatus` member
(`name, member = dict["__enum__"].split(".")` then
`getattr(ScraperStatus, member)`); any other dict is returned as an
`OrderedDict`.  A tag that is not a string fails like `.split` on a
non-string (`AttributeError`); a tag that does not split in exactly two
parts fails the tuple unpacking (`ValueError`); an unknown member name
fails `getattr` (`AttributeError`). -/
def enum_decoder (ds : PyFieldsS) : Except PyErr PyVal :=
  match ds.lookup? "__enum__" with
  | none => .ok (.pdictS ds)
  | some v =>
    match v with
    | .pstr s =>
      match splitDot s with
      | [_, member] =>
        match ScraperStatus.fromName? member with
        | some mem => .ok (.penum mem)
        | none => .error .attributeError
      | _ => .error .valueError
    | _ => .error .attributeError

mutual
/-- `json.load` with `object_hook=enum_decoder`: arrays become Python
lists, objects are passed through the hook bottom-up. -/
def Json.decode : Json → Except PyErr PyVal
  | .jnull => .ok .pnone
  | .jbool b => .ok (.pbool b)
  | .jnum n => .ok (.pint n)
  | .jstr s => .ok (.pstr s)
  | .jarr xs =>
    match xs.decode with
    | .ok vs => .ok (.plist vs)
    | .error e => .error e
  | .jobj fs =>
    match fs.decode with
    | .ok ds => enum_decoder ds
    | .error e => .error e

def JsonList.decode : JsonList → Except PyErr PyList
  | .nil => .ok .nil
  | .cons j rest =>
    match j.decode, rest.decode with
    | .ok v, .ok vs => .ok (.cons v vs)
    | .error e, _ => .error e
    | _, .error e => .error e

def JsonFields.decode : JsonFields → Except PyErr PyFieldsS
  | .nil => .ok .nil
  | .cons k j rest =>
    match j.decode, rest.decode with
    | .ok v, .ok ds => .ok (.cons k v ds)
    | .error e, _ => .error e
    | _, .error e => .error e
end

/-- The key conversion `{int(k): v for k, v in ....items()}`
(WebScraperStageThree.py line 113). -/
def PyFieldsS.toIntKeys : PyFieldsS → Except PyErr PyFieldsI
  | .nil => .ok .nil
  | .cons k v rest =>
    match pyIntOfStr? k with
    | some i =>
      match rest.toIntKeys with
      | .ok tail => .ok (.cons i v tail)
      | .error e => .error e
    | none => .error .valueError

/-- `load_web_scraper_target_urls` (WebScraperStageThree.py lines
100-114): `json.load` with the `enum_decoder` hook, then the top-level
keys converted from strings back to integers.  When the decoded top
level is not a dict, `.items()` fails (`AttributeError`). -/
def load_web_scraper_target_urls (j : Json) : Except PyErr PyVal :=
  match j.decode with
  | .error e => .error e
  | .ok (.pdictS es) =>
    match es.toIntKeys with
    | .ok es' => .ok (.pdictI es')
    | .error e => .error e
  | .ok _ => .error .attributeError

/-! ### Correctness of the decimal key round trip -/

/-- Value of a little-endian digit list. -/
def valLE : List Nat → Nat
  | [] => 0
  | d :: ds => d + 10 * valLE ds

theorem digitOfChar?_digitChar (d : Nat) (h : d < 10) :
    digitOfChar? (digitChar d) = some d := by
  interval_cases d <;> rfl

theorem digitChar_ne_dash (d : Nat) (h : d < 10) : digitChar d ≠ '-' := by
  interval_cases d <;> decide

theorem valLE_natDigitsLEAux :
    ∀ f n, n ≤ f → valLE (natDigitsLEAux f n) = n := by
  intro f
  induction f with
  | zero =>
    intro n hn
    interval_cases n
    rfl
  | succ f ih =>
    intro n hn
    match n with
    | 0 => rfl
    | m + 1 =>
      have hdiv : (m + 1) / 10 ≤ f := by
        have := Nat.div_lt_self (Nat.succ_pos m) (by norm_num : 1 < 10)
        omega
      simp only [natDigitsLEAux, valLE, ih _ hdiv]
      omega

theorem valLE_natDigitsLE (n : Nat) : valLE (natDigitsLE n) = n :=
  valLE_natDigitsLEAux n n le_rfl

theorem natDigitsLEAux_lt_ten :
    ∀ f n d, d ∈ natDigitsLEAux f n → d < 10 := by
  intro f
  induction f with
  | zero =>
    intro n d hd
    match n with
    | 0 => simp [natDigitsLEAux] at hd
    | m + 1 => simp [natDigitsLEAux] at hd
  | succ f ih =>
    intro n d hd
    match n with
    | 0 => simp [natDigitsLEAux] at hd
    | m + 1 =>
      simp only [natDigitsLEAux, List.mem_cons] at hd
      rcases hd with h | h
      · subst h; exact Nat.mod_lt _ (by norm_num)
      · exact ih _ _ h

theorem natDigitsLE_lt_ten (n d : Nat) (hd : d ∈ natDigitsLE n) : d < 10 :=
  natDigitsLEAux_lt_ten n n d hd

theorem parseDigitsAcc_map (ds : List Nat) :
    ∀ acc, (∀ d ∈ ds, d < 10) →
    parseDigitsAcc acc (ds.map digitChar) =
      some (ds.foldl (fun a d => a * 10 + d) acc) := by
  induction ds with
  | nil => intro acc _; rfl
  | cons d ds ih =>
    intro acc h
    have hd : d < 10 := h d (List.mem_cons_self d ds)
    simp only [List.map_cons, parseDigitsAcc, digitOfChar?_digitChar d hd,
      List.foldl_cons]
    exact ih _ (fun x hx => h x (List.mem_cons_of_mem d hx))

theorem foldl_reverse_valLE (ds : List Nat) :
    ∀ acc, ds.reverse.foldl (fun a d => a * 10 + d) acc =
      acc * 10 ^ ds.length + valLE ds := by
  induction ds with
  | nil => intro acc; simp [valLE]
  | cons d ds ih =>
    intro acc
    simp only [List.reverse_cons, List.foldl_append, List.foldl_cons,
      List.foldl_nil, ih acc, valLE, List.length_cons]
    ring

theorem natCharsBE_mem_ne_dash (n : Nat) (c : Char) (hc : c ∈ natCharsBE n) :
    c ≠ '-' := by
  simp only [natCharsBE, List.mem_map, List.mem_reverse] at hc
  obtain ⟨d, hd, rfl⟩ := hc
  exact digitChar_ne_dash d (natDigitsLE_lt_ten n d hd)

theorem natCharsBE_ne_nil (n : Nat) (hn : 0 < n) : natCharsBE n ≠ [] := by
  match n, hn with
  | m + 1, _ =>
    simp [natCharsBE, natDigitsLE, natDigitsLEAux]

theorem pyNatOfChars?_natCharsBE (n : Nat) (hn : 0 < n) :
    pyNatOfChars? (natCharsBE n) = some n := by
  have hne := natCharsBE_ne_nil n hn
  have hmain : parseDigitsAcc 0 (natCharsBE n) = some n := by
    have hmap : natCharsBE n = (natDigitsLE n).reverse.map digitChar := rfl
    rw [hmap, parseDigitsAcc_map _ _
      (fun d hd => natDigitsLE_lt_ten n d (List.mem_reverse.mp hd))]
    rw [foldl_reverse_valLE, valLE_natDigitsLE]
    simp
  match h : natCharsBE n with
  | [] => exact absurd h hne
  | c :: cs =>
    show parseDigitsAcc 0 (c :: cs) = some n
    rw [← h]
    exact hmain

theorem pyIntOfChars?_dash (cs : List Char) :
    pyIntOfChars? ('-' :: cs) =
      match pyNatOfChars? cs with
      | some n => some (-(n : Int))
      | none => none :=
  rfl

theorem pyIntOfChars?_nodash (c : Char) (cs : List Char) (h : ¬ c = '-') :
    pyIntOfChars? (c :: cs) =
      match pyNatOfChars? (c :: cs) with
      | some n => some ((n : Int))
      | none => none := by
  simp only [pyIntOfChars?, if_neg h]

theorem pyIntOfStr?_pyStrOfInt (i : Int) : pyIntOfStr? (pyStrOfInt i) = some i := by
  by_cases hneg : i < 0
  · have habs : 0 < i.natAbs := Int.natAbs_pos.mpr (by omega)
    have hdata : (pyStrOfInt i).data = '-' :: natCharsBE i.natAbs := by
      simp only [pyStrOfInt, if_pos hneg]
    rw [pyIntOfStr?, hdata, pyIntOfChars?_dash,
      pyNatOfChars?_natCharsBE i.natAbs habs]
    show some (-(i.natAbs : Int)) = some i
    congr 1
    omega
  · by_cases h0 : i = 0
    · subst h0; decide
    · have hpos : 0 < i.toNat := by omega
      have hne0 : ¬ i.toNat = 0 := by omega
      have hdata : (pyStrOfInt i).data = natCharsBE i.toNat := by
        simp only [pyStrOfInt, if_neg hneg, pyStrOfNat, if_neg hne0]
      rw [pyIntOfStr?, hdata]
      match h : natCharsBE i.toNat with
      | [] => exact absurd h (natCharsBE_ne_nil _ hpos)
      | c :: cs =>
        have hcd : ¬ c = '-' :=
          natCharsBE_mem_ne_dash i.toNat c (by rw [h]; exact List.mem_cons_self c cs)
        rw [pyIntOfChars?_nodash c cs hcd, ← h,
          pyNatOfChars?_natCharsBE i.toNat hpos]
        show some ((i.toNat : Int)) = some i
        congr 1
        omega

theorem pyStrOfInt_ne_enum_key (i : Int) : pyStrOfInt i ≠ "__enum__" := by
  intro h
  have h1 := pyIntOfStr?_pyStrOfInt i
  rw [h] at h1
  have h2 : pyIntOfStr? "__enum__" = none := by decide
  rw [h2] at h1
  exact Option.noConfusion h1

/-! ### The checkpoint round trip (C1)

`json.dump` then `json.load` is not the identity on every tree: tuples
come back as lists, nested integer-keyed dicts come back with string
keys (only the top level is converted back by
`load_web_scraper_target_urls`), and a dict that itself carries an
`"__enum__"` key is mangled by the hook.  `jsonStable` carves out the
values free of those three features. -/

mutual
def PyVal.jsonStable : PyVal → Bool
  | .pnone => true
  | .pbool _ => true
  | .pint _ => true
  | .pstr _ => true
  | .ptuple _ => false
  | .plist xs => xs.jsonStable
  | .penum _ => true
  | .pdictS es => !(es.hasKey "__enum__") && es.jsonStable
  | .pdictI _ => false

def PyList.jsonStable : PyList → Bool
  | .nil => true
  | .cons v rest => v.jsonStable && rest.jsonStable

def PyFieldsS.jsonStable : PyFieldsS → Bool
  | .nil => true
  | .cons _ v rest => v.jsonStable && rest.jsonStable
end

/-- Values of a (top-level, integer-keyed) artists dict are all
round-trip stable. -/
def PyFieldsI.valuesStable : PyFieldsI → Bool
  | .nil => true
  | .cons _ v rest => v.jsonStable && rest.valuesStable

mutual
theorem pyval_decode_encode :
    ∀ v : PyVal, v.jsonStable = true → v.encode.decode = .ok v
  | .pnone, _ => rfl
  | .pbool _, _ => rfl
  | .pint _, _ => rfl
  | .pstr _, _ => rfl
  | .plist xs, h => by
    have hx : xs.jsonStable = true := h
    have := pylist_decode_encode xs hx
    simp only [PyVal.encode, Json.decode, this]
  | .penum s, _ => by cases s <;> rfl
  | .pdictS es, h => by
    have h' : (!(es.hasKey "__enum__") && es.jsonStable) = true := h
    have h1 : es.hasKey "__enum__" = false := by
      cases hk : es.hasKey "__enum__" <;> simp [hk] at h' ⊢
    have h2 : es.jsonStable = true := by
      cases hs : es.jsonStable <;> simp [hs] at h' ⊢
    have h3 := pyfieldsS_decode_encode es h2
    have h4 : es.lookup? "__enum__" = none := by
      cases hl : es.lookup? "__enum__" with
      | none => rfl
      | some v => rw [PyFieldsS.hasKey, hl] at h1; simp at h1
    simp only [PyVal.encode, Json.decode, h3, enum_decoder, h4]

theorem pylist_decode_encode :
    ∀ xs : PyList, xs.jsonStable = true → xs.encode.decode = .ok xs
  | .nil, _ => rfl
  | .cons v rest, h => by
    have h' : (v.jsonStable && rest.jsonStable) = true := h
    have h1 : v.jsonStable = true := by
      cases hv : v.jsonStable <;> simp [hv] at h' ⊢
    have h2 : rest.jsonStable = true := by
      cases hr : rest.jsonStable <;> simp [hr] at h' ⊢
    have e1 := pyval_decode_encode v h1
    have e2 := pylist_decode_encode rest h2
    simp only [PyList.encode, JsonList.decode, e1, e2]

theorem pyfieldsS_decode_encode :
    ∀ es : PyFieldsS, es.jsonStable = true → es.encode.decode = .ok es
  | .nil, _ => rfl
  | .cons k v rest, h => by
    have h' : (v.jsonStable && rest.jsonStable) = true := h
    have h1 : v.jsonStable = true := by
      cases hv : v.jsonStable <;> simp [hv] at h' ⊢
    have h2 : rest.jsonStable = true := by
      cases hr : rest.jsonStable <;> simp [hr] at h' ⊢
    have e1 := pyval_decode_encode v h1
    have e2 := pyfieldsS_decode_encode rest h2
    simp only [PyFieldsS.encode, JsonFields.decode, e1, e2]
end

/-- The string-keyed dict that `json.load` reconstructs from an
integer-keyed dict: each key passed through `str(k)`. -/
def PyFieldsI.stringify : PyFieldsI → PyFieldsS
  | .nil => .nil
  | .cons k v rest => .cons (pyStrOfInt k) v rest.stringify

theorem fieldsI_decode_encode :
    ∀ es : PyFieldsI, es.valuesStable = true →
      JsonFields.decode (PyFieldsI.encode es) = .ok es.stringify
  | .nil, _ => rfl
  | .cons k v rest, h => by
    have h' : (v.jsonStable && rest.valuesStable) = true := h
    have h1 : v.jsonStable = true := by
      cases hv : v.jsonStable <;> simp [hv] at h' ⊢
    have h2 : rest.valuesStable = true := by
      cases hr : rest.valuesStable <;> simp [hr] at h' ⊢
    have e1 := pyval_decode_encode v h1
    have ih := fieldsI_decode_encode rest h2
    simp only [PyFieldsI.encode, JsonFields.decode, e1, ih,
      PyFieldsI.stringify]

theorem stringify_lookup_enum :
    ∀ es : PyFieldsI, es.stringify.lookup? "__enum__" = none
  | .nil => rfl
  | .cons k _ rest => by
    have ih := stringify_lookup_enum rest
    simp only [PyFieldsI.stringify, PyFieldsS.lookup?,
      if_neg (pyStrOfInt_ne_enum_key k), ih]

theorem stringify_toIntKeys :
    ∀ es : PyFieldsI, es.stringify.toIntKeys = .ok es
  | .nil => rfl
  | .cons k v rest => by
    have ih := stringify_toIntKeys rest
    simp only [PyFieldsI.stringify, PyFieldsS.toIntKeys,
      pyIntOfStr?_pyStrOfInt k, ih]

/-- A checkpoint tree exercising the two unstable features the real
trees have: a resume-marker tuple and a nested integer-keyed albums
dict (WebScraperTwo.py line 108 and line 287). -/
def c1CexTree : PyVal :=
  .pdictI (.cons 0 (.pdictS
    (.cons "aid" (.pint 0)
    (.cons "name" (.pstr "2Pac")
    (.cons "resume_target" (.ptuple (.cons (.pint 3) (.cons (.pint 7) .nil)))
    (.cons "scraped" (.penum .stage_two)
    (.cons "albums" (.pdictI (.cons 0 (.pdictS (.cons "alid" (.pint 0) .nil)) .nil))
    .nil)))))) .nil)

/-- What actually comes back from saving and loading `c1CexTree`: the
resume marker is now a list and the album keys are now strings. -/
def c1CexTreeLoaded : PyVal :=
  .pdictI (.cons 0 (.pdictS
    (.cons "aid" (.pint 0)
    (.cons "name" (.pstr "2Pac")
    (.cons "resume_target" (.plist (.cons (.pint 3) (.cons (.pint 7) .nil)))
    (.cons "scraped" (.penum .stage_two)
    (.cons "albums" (.pdictS (.cons "0" (.pdictS (.cons "alid" (.pint 0) .nil)) .nil))
    .nil)))))) .nil)

/-- Claim C1, counterexample: the checkpoint round trip is not the
identity on a tree with a resume-marker tuple and a nested
integer-keyed albums dict — the tuple comes back as a list and the
nested keys come back as strings. -/
theorem C1_roundtrip_counterexample :
    load_web_scraper_target_urls (PyVal.encode c1CexTree) =
        Except.ok c1CexTreeLoaded
      ∧ load_web_scraper_target_urls (PyVal.encode c1CexTree) ≠
        Except.ok c1CexTree := by
  constructor
  · decide
  · decide

/-- Claim C1 (amended): the checkpoint round trip
(`write_target_artists_to_json` with `EnumEncoder`, then
`load_web_scraper_target_urls` with `enum_decoder` and the
string-to-int key conversion) is the identity — keys, insertion order
and stage enums included — on every tree whose artist values are
round-trip stable: no tuples, no integer-keyed dicts below the top
level, and no dict carrying a literal `"__enum__"` key. -/
theorem C1_checkpoint_roundtrip (es : PyFieldsI) (h : es.valuesStable = true) :
    load_web_scraper_target_urls (PyVal.encode (.pdictI es)) =
      Except.ok (.pdictI es) := by
  have h1 := fieldsI_decode_encode es h
  have h2 := stringify_lookup_enum es
  have h3 := stringify_toIntKeys es
  simp only [PyVal.encode, load_web_scraper_target_urls, Json.decode, h1,
    enum_decoder, h2, h3]

/-- A stable checkpoint tree: the resume marker stored as a list and
the albums dict string-keyed, as they are after one load. -/
def c1WitnessTree : PyFieldsI :=
  .cons 0 (.pdictS
    (.cons "aid" (.pint 0)
    (.cons "name" (.pstr "2Pac")
    (.cons "url" (.pstr "http://ohhla.com/anonymous/2_pac/")
    (.cons "resume_target" (.plist (.cons (.pint (-1)) (.cons (.pint (-1)) .nil)))
    (.cons "scraped" (.penum .stage_one)
    (.cons "albums" (.pdictS (.cons "0" (.pdictS
      (.cons "alid" (.pint 0)
      (.cons "scraped" (.pbool false) .nil))) .nil))
    .nil)))))))
  (.cons 1 (.pdictS
    (.cons "aid" (.pint 1)
    (.cons "name" (.pstr "50 Cent")
    (.cons "scraped" (.penum .stage_zero)
    (.cons "albums" .pnone
    .nil))))) .nil)

theorem C1_checkpoint_roundtrip_witness :
    c1WitnessTree.valuesStable = true ∧
      load_web_scraper_target_urls (PyVal.encode (.pdictI c1WitnessTree)) =
        Except.ok (.pdictI c1WitnessTree) :=
  ⟨by decide, C1_checkpoint_roundtrip c1WitnessTree (by decide)⟩

/-! ### Load-time corruption behaviour (C6)

There is no `CorruptCheckpoint` error anywhere in the sources: the load
path validates nothing. -/

/-- An on-disk checkpoint in which the artist record lacks every
required field except its name. -/
def c6MissingFieldsDoc : Json :=
  .jobj (.cons "0" (.jobj (.cons "name" (.jstr "2Pac") .nil)) .nil)

/-- An on-disk checkpoint whose stage tag names no `ScraperStatus`
member. -/
def c6BadTagDoc : Json :=
  .jobj (.cons "0" (.jobj (.cons "scraped"
    (.jobj (.cons "__enum__" (.jstr "ScraperStatus.stage_nine") .nil)) .nil)) .nil)

/-- An on-disk checkpoint whose stage tag does not split into
`Type.member`. -/
def c6NoDotTagDoc : Json :=
  .jobj (.cons "0" (.jobj (.cons "scraped"
    (.jobj (.cons "__enum__" (.jstr "stage_two") .nil)) .nil)) .nil)

/-- Claim C6, counterexample: a checkpoint document with required
fields absent does not fail at all — the load returns the
partially-decoded tree. -/
theorem C6_load_missing_fields_succeeds :
    load_web_scraper_target_urls c6MissingFieldsDoc =
      Except.ok (.pdictI (.cons 0
        (.pdictS (.cons "name" (.pstr "2Pac") .nil)) .nil)) := by
  decide

/-- Claim C6 (amended): the load performs no required-field validation
(a document with fields absent loads as a partial tree), and a
malformed stage tag raises an ordinary untyped exception — an
`AttributeError` from `getattr` when the member name is unknown, a
`ValueError` from the tuple unpacking when the tag has no dot — not a
structured `CorruptCheckpoint` error (no such error exists in the
sources). -/
theorem C6_load_corruption_behavior :
    (load_web_scraper_target_urls c6MissingFieldsDoc).isOk = true
      ∧ load_web_scraper_target_urls c6BadTagDoc =
          Except.error .attributeError
      ∧ load_web_scraper_target_urls c6NoDotTagDoc =
          Except.error .valueError := by
  refine ⟨by decide, by decide, by decide⟩

/-! ### The save operation as a file-operation trace (C5)

`write_target_artists_to_json` (WebScraperStageThree.py lines 117-126)
and `update_artist_metadata_on_hdd` (WebScraperThree.py lines 548-555)
are both `open(dest, 'w')` — which truncates the destination in place —
followed by one `json.dump` and the context-manager close.  Neither
touches a temporary file or renames anything. -/

inductive FileOp where
  | openWrite (path : String) : FileOp
  | writeJson (path : String) (data : Json) : FileOp
  | close (path : String) : FileOp
  | rename (src : String) (dst : String) : FileOp
deriving DecidableEq, Repr

def FileOp.isRename : FileOp → Bool
  | .rename _ _ => true
  | _ => false

/-- `write_target_artists_to_json(target_artists, write_dir)`:
`with open(write_dir, 'w') as fp: json.dump(target_artists, fp, ...,
cls=EnumEncoder)`. -/
def write_target_artists_to_json (target_artists : PyVal)
    (write_dir : String) : List FileOp :=
  [.openWrite write_dir, .writeJson write_dir (PyVal.encode target_artists),
   .close write_dir]

/-- `update_artist_metadata_on_hdd(artists)` with the module-level
`scraper_metadata_json` path made explicit: `with
open(scraper_metadata_json, 'w') as fp: json.dump(artists, fp, ...,
cls=ScraperStatusEncoder)`. -/
def update_artist_metadata_on_hdd (artists : PyVal)
    (scraper_metadata_json : String) : List FileOp :=
  [.openWrite scraper_metadata_json,
   .writeJson scraper_metadata_json (PyVal.encode artists),
   .close scraper_metadata_json]

/-- The spec's write-to-temp-then-rename discipline, stated over a
trace: the destination path is never opened or written directly, and
some rename lands on the destination. -/
def atomic_temp_rename_save (ops : List FileOp) (dest : String) : Bool :=
  (ops.all fun op =>
    match op with
    | .openWrite p => !(p == dest)
    | .writeJson p _ => !(p == dest)
    | _ => true)
  && (ops.any fun op =>
    match op with
    | .rename _ p => p == dest
    | _ => false)

/-- A minimal tree for the C5 trace counterexample. -/
def c5Tree : PyVal :=
  .pdictI (.cons 0 (.pdictS (.cons "name" (.pstr "2Pac") .nil)) .nil)

/-- Claim C5, counterexample: the checkpoint save does not follow the
write-to-temp-then-atomic-rename discipline — it opens the destination
itself for (truncating) writing and performs no rename. -/
theorem C5_save_counterexample :
    atomic_temp_rename_save
      (write_target_artists_to_json c5Tree "target_artists_stage_three.json")
      "target_artists_stage_three.json" = false := by
  decide

/-- Claim C5 (amended): both checkpoint-save operations write directly
to the destination path — the trace opens the destination itself in
truncating write mode and contains no rename at all, so a crash between
the open and the close leaves a half-written (or empty) checkpoint at
the destination, and no temp-file cleanup exists because no temp file
is ever created. -/
theorem C5_save_writes_destination_directly (t : PyVal) (dest : String) :
    ((write_target_artists_to_json t dest).all fun op => !op.isRename) = true
    ∧ FileOp.openWrite dest ∈ write_target_artists_to_json t dest
    ∧ FileOp.writeJson dest (PyVal.encode t) ∈ write_target_artists_to_json t dest
    ∧ ((update_artist_metadata_on_hdd t dest).all fun op => !op.isRename) = true
    ∧ FileOp.openWrite dest ∈ update_artist_metadata_on_hdd t dest := by
  refine ⟨rfl, ?_, ?_, rfl, ?_⟩
  · simp [write_target_artists_to_json]
  · simp [write_target_artists_to_json]
  · simp [update_artist_metadata_on_hdd]

/-! ### The overridden stage-enum equalities (C9)

Three `__eq__` overrides exist: `ScraperStatus.__eq__` in
WebScraperStageThree.py (lines 42-50: a failed cast is only printed,
and a fall-through returns `None`), `ScraperStatus.__eq__` in
WebScraperThree.py (lines 69-85: a failed cast prints and calls
`exit(-1)`), and `TranscriptionStatus.__eq__` in WebScraperThree.py
(lines 139-148: same `exit(-1)` shape, and it casts its operand to
`ScraperStatus`, not `TranscriptionStatus`). -/

/-- A right operand of a stage comparison. -/
inductive PyOperand where
  | int (n : Int) : PyOperand
  | ss (s : ScraperStatus) : PyOperand
  | ts (t : TranscriptionStatus) : PyOperand
deriving DecidableEq, Repr

/-- What an `__eq__` call can do: return a bool, return `None`
(falsy), or terminate the process. -/
inductive EqOutcome where
  | bool (b : Bool) : EqOutcome
  | pynone : EqOutcome
  | exited : EqOutcome
deriving DecidableEq, Repr

/-- `ScraperStatus(obj)`: a member passes through, an integer is looked
up by value, a `TranscriptionStatus` member raises `ValueError`. -/
def castToScraperStatus : PyOperand → Option ScraperStatus
  | .int n => ScraperStatus.ofValue? n
  | .ss s => some s
  | .ts _ => none

/-- `ScraperStatus.__eq__` of WebScraperStageThree.py: the cast failure
is caught and printed, then `if type(obj) is type(self)` compares
values for a member and falls through to an implicit `None` for
everything else. -/
def stageThreeScraperStatusEq (self : ScraperStatus) (obj : PyOperand) :
    EqOutcome :=
  match obj with
  | .ss s => .bool (decide (self.value = s.value))
  | _ => .pynone

/-- `ScraperStatus.__eq__` of WebScraperThree.py: the cast and the type
check sit inside the `try`, and the `except` branch calls `exit(-1)`. -/
def ws3ScraperStatusEq (self : ScraperStatus) (obj : PyOperand) : EqOutcome :=
  match castToScraperStatus obj with
  | some c =>
    match obj with
    | .ss _ => .bool (decide (self.value = c.value))
    | _ => .pynone
  | none => .exited

/-- `TranscriptionStatus.__eq__` of WebScraperThree.py: identical shape
but the cast goes to `ScraperStatus(obj)`, so a `TranscriptionStatus`
operand always fails the cast and exits. -/
def ws3TranscriptionStatusEq (self : TranscriptionStatus) (obj : PyOperand) :
    EqOutcome :=
  match castToScraperStatus obj with
  | some c =>
    match obj with
    | .ts _ => .bool (decide (self.value = c.value))
    | _ => .pynone
  | none => .exited

/-- Claim C9, counterexample: comparing a stage against a plain integer
is not always `None` — in WebScraperThree.py an integer that is not a
valid `ScraperStatus` value makes the overridden equality terminate the
whole process, and a `TranscriptionStatus` self-comparison exits too. -/
theorem C9_eq_exits_counterexample :
    ws3TranscriptionStatusEq TranscriptionStatus.stage_zero (.int 7) = .exited
    ∧ ws3TranscriptionStatusEq TranscriptionStatus.stage_zero (.int 7) ≠ .pynone
    ∧ ws3ScraperStatusEq ScraperStatus.stage_zero (.int 7) = .exited
    ∧ ws3TranscriptionStatusEq TranscriptionStatus.stage_one
        (.ts TranscriptionStatus.stage_one) = .exited := by
  refine ⟨by decide, by decide, by decide, by decide⟩

/-- Claim C9 (amended): in WebScraperStageThree.py, `s == s` returns
`True` for every member and a comparison against any integer or any
foreign enum member returns `None` (falsy); in WebScraperThree.py the
overridden equalities return `None` only for operands castable to
`ScraperStatus` (integers 0..4), and terminate the process for any
other integer and for every `TranscriptionStatus` operand. -/
theorem C9_enum_eq_behavior :
    (∀ s : ScraperStatus, stageThreeScraperStatusEq s (.ss s) = .bool true)
    ∧ (∀ (s : ScraperStatus) (n : Int),
        stageThreeScraperStatusEq s (.int n) = .pynone)
    ∧ (∀ (s : ScraperStatus) (t : TranscriptionStatus),
        stageThreeScraperStatusEq s (.ts t) = .pynone)
    ∧ (∀ (s : ScraperStatus) (n : Int),
        ws3ScraperStatusEq s (.int n) =
          if (ScraperStatus.ofValue? n).isSome then .pynone else .exited)
    ∧ (∀ t : TranscriptionStatus, ws3TranscriptionStatusEq t (.ts t) = .exited) := by
  refine ⟨?_, ?_, ?_, ?_, ?_⟩
  · intro s; simp [stageThreeScraperStatusEq]
  · intro s n; rfl
  · intro s t; rfl
  · intro s n
    cases h : ScraperStatus.ofValue? n <;>
      simp [ws3ScraperStatusEq, castToScraperStatus, h]
  · intro t; rfl

/-! ### The resume selector (C2)

Artist-level selection is `get_target_artist_to_scrape`
(WebScraperTwo.py lines 47-58); the full artist → album → song walk is
in the `__main__` block of WebScraper.py (lines 211-245).  Both operate
on the loaded tree of plain dicts, so they are modelled directly over
`PyVal`. -/

/-- Python subscription `v[k]` with a string key: a dict lookup
(`KeyError` when absent), `TypeError` on any non-dict. -/
def PyVal.getItem : PyVal → String → Except PyErr PyVal
  | .pdictS es, k =>
    match es.lookup? k with
    | some v => .ok v
    | none => .error .keyError
  | _, _ => .error .typeError

/-- The scan `for k, v in d.items(): if v['scraped'] is False: ...`
over an integer-keyed dict: first entry whose `'scraped'` value is the
object `False`, propagating any exception `v['scraped']` raises. -/
def firstScrapedFalseI : PyFieldsI → Except PyErr (Option (Int × PyVal))
  | .nil => .ok none
  | .cons k v rest =>
    match v.getItem "scraped" with
    | .error e => .error e
    | .ok x => if x = .pbool false then .ok (some (k, v)) else firstScrapedFalseI rest

/-- The same scan over a string-keyed dict. -/
def firstScrapedFalseS : PyFieldsS → Except PyErr (Option (String × PyVal))
  | .nil => .ok none
  | .cons k v rest =>
    match v.getItem "scraped" with
    | .error e => .error e
    | .ok x => if x = .pbool false then .ok (some (k, v)) else firstScrapedFalseS rest

/-- `get_target_artist_to_scrape` (WebScraperTwo.py lines 47-58): the
AID of the first artist whose `resume_target[0] is not None`, and the
implicit Python `None` (here `Option.none`) when every artist is
complete. -/
def get_target_artist_to_scrape : PyFieldsI → Except PyErr (Option Int)
  | .nil => .ok none
  | .cons aid v rest =>
    match v.getItem "resume_target" with
    | .error e => .error e
    | .ok rt =>
      match rt with
      | .ptuple (.cons x _) =>
        if x = .pnone then get_target_artist_to_scrape rest else .ok (some aid)
      | .plist (.cons x _) =>
        if x = .pnone then get_target_artist_to_scrape rest else .ok (some aid)
      | .ptuple .nil => .error .indexError
      | .plist .nil => .error .indexError
      | _ => .error .typeError

/-- What the WebScraper.py resume walk can come out with. -/
inductive ResumePoint where
  | freshAlbums (aid : Int) : ResumePoint
  | resumeAt (aid : Int) (resume_alid : PyVal) (resume_sid : Option String) : ResumePoint
deriving DecidableEq, Repr

/-- The resume-point walk of WebScraper.py `__main__` (lines 211-245):

* first artist (in insertion order) with `artist_info['scraped'] is
  False`; when none is found `target_artist` stays `None` and the
  following `target_artist['AID']` raises `TypeError`;
* when the artist has no `'albums'` key, the walk resumes with the
  fresh `(None, None)` target;
* otherwise, first album with `album_info['scraped'] is False`; when
  none is found `target_album['ALID']` raises `TypeError`;
* then the song scan — which iterates `target_album.items()`, i.e. the
  album's own metadata fields, not a song mapping — looks for the first
  item with `song_info['scraped'] is False`. -/
def webScraperResumeSelect (target_artists : PyFieldsI) :
    Except PyErr ResumePoint :=
  match firstScrapedFalseI target_artists with
  | .error e => .error e
  | .ok none => .error .typeError
  | .ok (some (aid, artist)) =>
    match artist with
    | .pdictS fields =>
      if fields.hasKey "albums" then
        match fields.lookup? "albums" with
        | some (.pdictS albumFields) =>
          match firstScrapedFalseS albumFields with
          | .error e => .error e
          | .ok none => .error .typeError
          | .ok (some (_, album)) =>
            match album.getItem "ALID" with
            | .error e => .error e
            | .ok resume_alid =>
              match album with
              | .pdictS albumItems =>
                match firstScrapedFalseS albumItems with
                | .error e => .error e
                | .ok r => .ok (.resumeAt aid resume_alid (r.map Prod.fst))
              | _ => .error .typeError
        | some _ => .error .attributeError
        | none => .error .keyError
      else .ok (.freshAlbums aid)
    | _ => .error .typeError

/-- A loaded tree with one incomplete artist holding one incomplete
album, shaped exactly as `web_scrape_albums` of WebScraper.py builds
album records (`ALID`, `name`, `url`, `scraped`; no song mapping). -/
def c2FailingArtists : PyFieldsI :=
  .cons 0 (.pdictS
    (.cons "AID" (.pint 0)
    (.cons "name" (.pstr "2Pac")
    (.cons "url" (.pstr "http://ohhla.com/anonymous/2_pac/")
    (.cons "scraped" (.pbool false)
    (.cons "albums" (.pdictS (.cons "0" (.pdictS
      (.cons "ALID" (.pint 0)
      (.cons "name" (.pstr "All Eyez On Me")
      (.cons "url" (.pstr "http://ohhla.com/anonymous/2_pac/all_eyez/")
      (.cons "scraped" (.pbool false) .nil))))) .nil))
    .nil)))))) .nil

/-- A tree in which every artist's resume marker is the completion
sentinel `(None, None)`. -/
def c2AllCompleteArtists : PyFieldsI :=
  .cons 0 (.pdictS
    (.cons "AID" (.pint 0)
    (.cons "resume_target" (.ptuple (.cons .pnone (.cons .pnone .nil)))
    .nil))) .nil

/-- Claim C2: the song-level selection is broken.  On a tree whose
first incomplete artist has a first incomplete album, the walk raises
`TypeError` instead of returning the first incomplete song, because the
song scan iterates the album's metadata fields (`'ALID'` maps to an
integer, and `0['scraped']` is a `TypeError`).  The artist-level
selector of WebScraperTwo.py does return its `None` sentinel when every
artist is complete. -/
theorem C2_resume_selection_at_failing_input :
    webScraperResumeSelect c2FailingArtists = Except.error .typeError
    ∧ get_target_artist_to_scrape c2AllCompleteArtists = Except.ok none := by
  refine ⟨by decide, by decide⟩

/-! ### The StageThree per-album song pass (C4, C7)

`WebScraperStageThree.main` (lines 238-291) walks each unscraped album:
`web_scrape_target_songs` fetches the song listing (`None` on a 404,
upon which the album — and, via `break`, the artist's remaining albums
— are skipped), then `web_scrape_song_plaintext` fetches each song's
text (`None` on a 404).  A successful fetch stores the text in the
song's `'ascii'` field; a failed fetch only prints a warning and leaves
the song record untouched.  Afterwards the album's `'scraped'` flag is
set `True` unconditionally (line 271).  Both network calls are modelled
as oracles. -/

structure S3Song where
  sid : Int
  name : String
  url : String
  storage_dir : String
  ascii : Option String
deriving DecidableEq, Repr

structure S3Album where
  alid : Int
  name : String
  url : String
  storage_dir : String
  scraped : Bool
  songs : List (Int × S3Song)
deriving DecidableEq, Repr

/-- One pass of `WebScraperStageThree.main` over a single album
(lines 244-277): skip if already scraped; fetch the song listing (skip
the album when that 404s); store each song's fetched text, leaving a
song unchanged when its fetch fails; then set `songs` and
`scraped = True` on the album. -/
def process_album (fetchSongs : S3Album → Option (List (Int × S3Song)))
    (fetchText : S3Song → Option String) (album : S3Album) : S3Album :=
  if album.scraped then album
  else
    match fetchSongs album with
    | none => album
    | some target_songs =>
      let songs' := target_songs.map fun p =>
        match fetchText p.2 with
        | some txt => (p.1, { p.2 with ascii := some txt })
        | none => p
      { album with songs := songs', scraped := true }

def c4Song0 : S3Song :=
  { sid := 0, name := "track01.txt", url := "au/track01.txt",
    storage_dir := "ad\\track01", ascii := none }

def c4Song1 : S3Song :=
  { sid := 1, name := "track02.txt", url := "au/track02.txt",
    storage_dir := "ad\\track02", ascii := none }

def c4Album : S3Album :=
  { alid := 0, name := "All Eyez On Me", url := "au",
    storage_dir := "ad", scraped := false, songs := [] }

/-- The song-listing fetch succeeds with two songs. -/
def c4FetchSongs : S3Album → Option (List (Int × S3Song)) :=
  fun _ => some [(0, c4Song0), (1, c4Song1)]

/-- Song 0's text fetch succeeds; song 1's returns not-found. -/
def c4FetchText : S3Song → Option String :=
  fun s => if s.sid = 0 then some "lyrics" else none

/-- A later run in which every fetch would succeed. -/
def c7FetchTextOk : S3Song → Option String :=
  fun _ => some "recovered lyrics"

/-- Claim C4: evaluating the driver pass at the failing input — song
1's fetch returns not-found — shows the album's `'scraped'` flag set
`True` while song 1's record still has `ascii = None` and carries no
failure marker of any kind. -/
theorem C4_album_flag_set_despite_pending_song :
    (process_album c4FetchSongs c4FetchText c4Album).scraped = true
    ∧ (process_album c4FetchSongs c4FetchText c4Album).songs =
        [(0, { c4Song0 with ascii := some "lyrics" }), (1, c4Song1)]
    ∧ c4Song1.ascii = none := by
  refine ⟨by decide, by decide, by decide⟩

/-- Claim C7, counterexample: a not-found song is not recorded as
failed — its record is bit-for-bit unchanged — and it is not retried
either: the album comes out `scraped = True`, so a second pass (even
one whose every fetch would succeed) leaves the tree untouched. -/
theorem C7_no_failure_record_no_retry :
    (process_album c4FetchSongs c4FetchText c4Album).songs.lookup 1 =
        some c4Song1
    ∧ process_album c4FetchSongs c7FetchTextOk
        (process_album c4FetchSongs c4FetchText c4Album) =
      process_album c4FetchSongs c4FetchText c4Album := by
  refine ⟨by decide, by decide⟩

/-- Claim C7 (amended): when an album's song listing is fetched, each
song's outcome is isolated — a song whose text fetch fails keeps its
record unchanged (text still null, no failure marker recorded, whether
the failure is a 404 or transient), while its siblings are processed
normally — and the album is then marked `scraped = True`, so no failed
song is ever retried on a later pass. -/
theorem C7_failed_fetch_isolation
    (fetchSongs : S3Album → Option (List (Int × S3Song)))
    (fetchText : S3Song → Option String) (album : S3Album)
    (songs : List (Int × S3Song))
    (h1 : album.scraped = false) (h2 : fetchSongs album = some songs) :
    (process_album fetchSongs fetchText album).scraped = true
    ∧ (process_album fetchSongs fetchText album).songs =
        songs.map (fun p =>
          match fetchText p.2 with
          | some txt => (p.1, { p.2 with ascii := some txt })
          | none => p)
    ∧ ∀ (g : S3Album → Option (List (Int × S3Song)))
        (g' : S3Song → Option String),
        process_album g g' (process_album fetchSongs fetchText album) =
          process_album fetchSongs fetchText album := by
  have hres : (process_album fetchSongs fetchText album).scraped = true := by
    simp [process_album, h1, h2]
  refine ⟨hres, ?_, ?_⟩
  · simp [process_album, h1, h2]
  · intro g g'
    revert hres
    generalize process_album fetchSongs fetchText album = X
    intro hres
    simp [process_album, hres]

theorem C7_failed_fetch_isolation_witness :
    (process_album c4FetchSongs c4FetchText c4Album).scraped = true
    ∧ (process_album c4FetchSongs c4FetchText c4Album).songs =
        [(0, c4Song0), (1, c4Song1)].map (fun p =>
          match c4FetchText p.2 with
          | some txt => (p.1, { p.2 with ascii := some txt })
          | none => p)
    ∧ ∀ (g : S3Album → Option (List (Int × S3Song)))
        (g' : S3Song → Option String),
        process_album g g' (process_album c4FetchSongs c4FetchText c4Album) =
          process_album c4FetchSongs c4FetchText c4Album :=
  C7_failed_fetch_isolation c4FetchSongs c4FetchText c4Album
    [(0, c4Song0), (1, c4Song1)] (by decide) (by decide)

/-! ### WebScraperThree artist records, removal, and the init loop
(C3, C8, C10)

An artist record of `scraper_metadata.json` (WebScraperThree.py lines
261-268): `AID`, `name`, `url`, `resume_target` (a pair whose slots are
integers or `None`), `storage_dir` and `scrape_status`. -/

structure ArtistW3 where
  aid : Int
  name : String
  url : String
  resume_target : Option Int × Option Int
  storage_dir : String
  scrape_status : ScraperStatus
deriving DecidableEq, Repr

/-- An artist record minus its `AID` field (removal rewrites `AID`, so
the claims about preserved content quantify over this part). -/
structure ArtistW3Core where
  name : String
  url : String
  resume_target : Option Int × Option Int
  storage_dir : String
  scrape_status : ScraperStatus
deriving DecidableEq, Repr

def ArtistW3.core (a : ArtistW3) : ArtistW3Core :=
  { name := a.name, url := a.url, resume_target := a.resume_target,
    storage_dir := a.storage_dir, scrape_status := a.scrape_status }

/-- The reindexing loop of `remove_artist_from_metadata`: an `index`
counter starting at 0, incremented for each kept record. -/
def reindexFrom (index : Nat) : List ArtistW3 → List (Int × ArtistW3)
  | [] => []
  | a :: rest => ((index : Int), a) :: reindexFrom (index + 1) rest

/-- `remove_artist_from_metadata` (WebScraperThree.py lines 524-545):
the first loop rebuilds the dict with dense keys `0, 1, ...` over the
records whose key differs from `aid`, in order; the second loop then
overwrites each record's `AID` field with its new key. -/
def remove_artist_from_metadata (artists : List (Int × ArtistW3))
    (aid : Int) : List (Int × ArtistW3) :=
  let updated_artists :=
    reindexFrom 0 ((artists.filter fun p => decide (p.1 ≠ aid)).map Prod.snd)
  updated_artists.map fun p => (p.1, { p.2 with aid := p.1 })

theorem filter_ne_key_length (artists : List (Int × ArtistW3)) (aid : Int)
    (hnd : (artists.map Prod.fst).Nodup)
    (hmem : aid ∈ artists.map Prod.fst) :
    (artists.filter fun p => decide (p.1 ≠ aid)).length + 1 =
      artists.length := by
  induction artists with
  | nil => simp at hmem
  | cons hd tl ih =>
    simp only [List.map_cons, List.nodup_cons] at hnd
    simp only [List.map_cons, List.mem_cons] at hmem
    by_cases h : hd.1 = aid
    · have htl : tl.filter (fun p => decide (p.1 ≠ aid)) = tl := by
        apply List.filter_eq_self.mpr
        intro p hp
        have hne : p.1 ≠ aid := by
          intro heq
          apply hnd.1
          rw [h, ← heq]
          exact List.mem_map_of_mem Prod.fst hp
        exact decide_eq_true hne
      rw [List.filter_cons, if_neg (by simp [h]), htl]
      simp
    · have hmem' : aid ∈ tl.map Prod.fst := by
        rcases hmem with h' | h'
        · exact absurd h'.symm h
        · exact h'
      have := ih hnd.2 hmem'
      simp only [List.filter_cons]
      rw [if_pos (by simpa using h)]
      simp only [List.length_cons]
      omega

theorem reindexFrom_length (l : List ArtistW3) :
    ∀ i, (reindexFrom i l).length = l.length := by
  induction l with
  | nil => intro i; rfl
  | cons a rest ih =>
    intro i
    simp [reindexFrom, ih (i + 1)]

theorem reindex_set_aid_keys (l : List ArtistW3) :
    ∀ i, ((reindexFrom i l).map fun p => (p.1, { p.2 with aid := p.1 })).map
        Prod.fst =
      (List.range' i l.length).map Int.ofNat := by
  induction l with
  | nil => intro i; rfl
  | cons a rest ih =>
    intro i
    simp only [List.length_cons]
    rw [List.range'_succ i rest.length 1]
    simp only [reindexFrom, List.map_cons]
    rw [ih (i + 1)]
    rfl

theorem reindex_set_aid_field (l : List ArtistW3) :
    ∀ i, ∀ p ∈ (reindexFrom i l).map
        fun p => (p.1, { p.2 with aid := p.1 }),
      p.2.aid = p.1 := by
  induction l with
  | nil => intro i p hp; simp [reindexFrom] at hp
  | cons a rest ih =>
    intro i p hp
    simp only [reindexFrom, List.map_cons, List.mem_cons] at hp
    rcases hp with h | h
    · subst h; rfl
    · exact ih (i + 1) p h

theorem reindex_set_aid_cores (l : List ArtistW3) :
    ∀ i, ((reindexFrom i l).map fun p => (p.1, { p.2 with aid := p.1 })).map
        (fun p => p.2.core) =
      l.map ArtistW3.core := by
  induction l with
  | nil => intro i; rfl
  | cons a rest ih =>
    intro i
    simp only [reindexFrom, List.map_cons]
    rw [ih (i + 1)]
    rfl

theorem remove_length_eq_filter (artists : List (Int × ArtistW3)) (aid : Int) :
    (remove_artist_from_metadata artists aid).length =
      (artists.filter fun p => decide (p.1 ≠ aid)).length := by
  simp [remove_artist_from_metadata, reindexFrom_length]

/-- Claim C8 (confirmed): removing a present identifier from a
mapping with distinct keys yields exactly the consecutive keys
`0..n-2`, carrying the non-removed records in their original relative
order (their content untouched apart from the forced `AID` rewrite),
with each record's `AID` field equal to its new key; the removed
artist's record is gone. -/
theorem C8_removal_recompaction (artists : List (Int × ArtistW3)) (aid : Int)
    (hnd : (artists.map Prod.fst).Nodup)
    (hmem : aid ∈ artists.map Prod.fst) :
    (remove_artist_from_metadata artists aid).length + 1 = artists.length
    ∧ (remove_artist_from_metadata artists aid).map Prod.fst =
        (List.range (remove_artist_from_metadata artists aid).length).map
          Int.ofNat
    ∧ (∀ p ∈ remove_artist_from_metadata artists aid, p.2.aid = p.1)
    ∧ (remove_artist_from_metadata artists aid).map (fun p => p.2.core) =
        (artists.filter fun p => decide (p.1 ≠ aid)).map
          (fun p => p.2.core) := by
  refine ⟨?_, ?_, ?_, ?_⟩
  · rw [remove_length_eq_filter]
    exact filter_ne_key_length artists aid hnd hmem
  · rw [remove_length_eq_filter, List.range_eq_range']
    simp only [remove_artist_from_metadata]
    have h1 := reindex_set_aid_keys
      ((artists.filter fun p => decide (p.1 ≠ aid)).map Prod.snd) 0
    simp only [List.length_map] at h1
    exact h1
  · intro p hp
    simp only [remove_artist_from_metadata] at hp
    exact reindex_set_aid_field
      ((artists.filter fun p => decide (p.1 ≠ aid)).map Prod.snd) 0 p hp
  · simp only [remove_artist_from_metadata]
    have h2 := reindex_set_aid_cores
      ((artists.filter fun p => decide (p.1 ≠ aid)).map Prod.snd) 0
    rw [h2, List.map_map]
    rfl

def c8ArtistA : ArtistW3 :=
  { aid := 0, name := "2Pac", url := "ua",
    resume_target := (some (-1), some (-1)), storage_dir := "da",
    scrape_status := .stage_one }

def c8ArtistB : ArtistW3 :=
  { aid := 1, name := "50 Cent", url := "ub",
    resume_target := (some 2, some 5), storage_dir := "db",
    scrape_status := .stage_two }

def c8ArtistC : ArtistW3 :=
  { aid := 2, name := "ATCQ", url := "uc",
    resume_target := (none, none), storage_dir := "dc",
    scrape_status := .stage_three }

def c8Artists : List (Int × ArtistW3) :=
  [(0, c8ArtistA), (1, c8ArtistB), (2, c8ArtistC)]

theorem C8_removal_recompaction_witness :
    (remove_artist_from_metadata c8Artists 1).length + 1 = c8Artists.length
    ∧ (remove_artist_from_metadata c8Artists 1).map Prod.fst =
        (List.range (remove_artist_from_metadata c8Artists 1).length).map
          Int.ofNat
    ∧ (∀ p ∈ remove_artist_from_metadata c8Artists 1, p.2.aid = p.1)
    ∧ (remove_artist_from_metadata c8Artists 1).map (fun p => p.2.core) =
        (c8Artists.filter fun p => decide (p.1 ≠ 1)).map
          (fun p => p.2.core) :=
  C8_removal_recompaction c8Artists 1 (by decide) (by decide)

/-! ### The init-dirs retry loop (C10) and stage monotonicity (C3)

`init_artists_storage_dirs` (WebScraperThree.py lines 587-623) runs
passes over the artists: every `stage_zero` artist gets its directory
created (the filesystem outcome is the oracle `σ`); success advances
the artist to `stage_one`, failure breaks out of the pass with an
interrupt naming the artist, which the outer loop removes before
retrying; a pass without interrupt persists the metadata and returns. -/

/-- One `for aid, artist_info in artists.items()` pass: the updated
list and the interrupt, `some aid` when a directory creation failed. -/
def initDirsPass (σ : Int → ArtistW3 → Bool) :
    List (Int × ArtistW3) → List (Int × ArtistW3) × Option Int
  | [] => ([], none)
  | (aid, a) :: rest =>
    if a.scrape_status = ScraperStatus.stage_zero then
      if σ aid a then
        ((aid, { a with scrape_status := ScraperStatus.stage_one }) ::
            (initDirsPass σ rest).1,
          (initDirsPass σ rest).2)
      else ((aid, a) :: rest, some aid)
    else ((aid, a) :: (initDirsPass σ rest).1, (initDirsPass σ rest).2)

/-- The `while not finished` loop, with explicit fuel: one pass, then
either return (no interrupt) or remove the offending artist and retry.
`none` means the fuel ran out — the termination theorem shows
`length + 1` fuel never does. -/
def init_artists_storage_dirs (σ : Int → ArtistW3 → Bool) :
    Nat → List (Int × ArtistW3) → Option (List (Int × ArtistW3))
  | 0, _ => none
  | fuel + 1, artists =>
    match (initDirsPass σ artists).2 with
    | none => some (initDirsPass σ artists).1
    | some aid =>
      init_artists_storage_dirs σ fuel
        (remove_artist_from_metadata (initDirsPass σ artists).1 aid)

theorem initDirsPass_map_fst (σ : Int → ArtistW3 → Bool) :
    ∀ l : List (Int × ArtistW3),
      (initDirsPass σ l).1.map Prod.fst = l.map Prod.fst := by
  intro l
  induction l with
  | nil => rfl
  | cons hd tl ih =>
    obtain ⟨aid, a⟩ := hd
    by_cases h1 : a.scrape_status = ScraperStatus.stage_zero
    · by_cases h2 : σ aid a
      · simp [initDirsPass, h1, h2, ih]
      · simp [initDirsPass, h1, h2]
    · simp [initDirsPass, h1, ih]

theorem initDirsPass_interrupt_mem (σ : Int → ArtistW3 → Bool) :
    ∀ (l : List (Int × ArtistW3)) (aid : Int),
      (initDirsPass σ l).2 = some aid → aid ∈ l.map Prod.fst := by
  intro l
  induction l with
  | nil => intro aid h; simp [initDirsPass] at h
  | cons hd tl ih =>
    intro aid h
    obtain ⟨k, a⟩ := hd
    by_cases h1 : a.scrape_status = ScraperStatus.stage_zero
    · by_cases h2 : σ k a
      · simp only [initDirsPass, if_pos h1, if_pos h2] at h
        exact List.mem_cons_of_mem _ (ih aid h)
      · simp only [initDirsPass, if_pos h1, if_neg h2] at h
        simp only [List.map_cons, List.mem_cons]
        injection h with h'
        exact Or.inl h'.symm
    · simp only [initDirsPass, if_neg h1] at h
      exact List.mem_cons_of_mem _ (ih aid h)

theorem remove_length_lt (artists : List (Int × ArtistW3)) (aid : Int)
    (hmem : aid ∈ artists.map Prod.fst) :
    (remove_artist_from_metadata artists aid).length < artists.length := by
  rw [remove_length_eq_filter]
  have : ∃ p ∈ artists, ¬ (decide (p.1 ≠ aid) = true) := by
    simp only [List.mem_map] at hmem
    obtain ⟨p, hp, hfst⟩ := hmem
    exact ⟨p, hp, by simp [hfst]⟩
  obtain ⟨p, hp, hnp⟩ := this
  calc (artists.filter fun p => decide (p.1 ≠ aid)).length
      < artists.length := by
        refine List.length_filter_lt_length_iff_exists.mpr ?_
        exact ⟨p, hp, hnp⟩

theorem init_fuel_sufficient (σ : Int → ArtistW3 → Bool) :
    ∀ (n : Nat) (artists : List (Int × ArtistW3)), artists.length ≤ n →
      (init_artists_storage_dirs σ (n + 1) artists).isSome = true := by
  intro n
  induction n with
  | zero =>
    intro artists h
    have : artists = [] := List.length_eq_zero.mp (Nat.le_zero.mp h)
    subst this
    rfl
  | succ n ih =>
    intro artists h
    cases hp : (initDirsPass σ artists).2 with
    | none => simp [init_artists_storage_dirs, hp]
    | some aid =>
      have hmem : aid ∈ artists.map Prod.fst :=
        initDirsPass_interrupt_mem σ artists aid hp
      have hkeys : (initDirsPass σ artists).1.map Prod.fst =
          artists.map Prod.fst := initDirsPass_map_fst σ artists
      have hmem' : aid ∈ (initDirsPass σ artists).1.map Prod.fst := by
        rw [hkeys]; exact hmem
      have hlen' : (initDirsPass σ artists).1.length = artists.length := by
        have := congrArg List.length hkeys
        simpa using this
      have hrem := remove_length_lt (initDirsPass σ artists).1 aid hmem'
      have hle : (remove_artist_from_metadata (initDirsPass σ artists).1
          aid).length ≤ n := by
        omega
      have hres := ih (remove_artist_from_metadata (initDirsPass σ artists).1
        aid) hle
      simpa [init_artists_storage_dirs, hp] using hres

/-- Claim C10 (confirmed): with distinct keys, every pass of the
`init_artists_storage_dirs` while-loop either returns or removes
exactly one artist, so the loop finishes within `length + 1` passes. -/
theorem C10_init_dirs_loop_terminates (σ : Int → ArtistW3 → Bool)
    (artists : List (Int × ArtistW3))
    (hnd : (artists.map Prod.fst).Nodup) :
    (init_artists_storage_dirs σ (artists.length + 1) artists).isSome = true
    ∧ ∀ aid, (initDirsPass σ artists).2 = some aid →
        (remove_artist_from_metadata (initDirsPass σ artists).1 aid).length
          + 1 = artists.length := by
  constructor
  · exact init_fuel_sufficient σ artists.length artists le_rfl
  · intro aid hintr
    have hmem : aid ∈ artists.map Prod.fst :=
      initDirsPass_interrupt_mem σ artists aid hintr
    have hkeys := initDirsPass_map_fst σ artists
    have hmem' : aid ∈ (initDirsPass σ artists).1.map Prod.fst := by
      rw [hkeys]; exact hmem
    have hnd' : ((initDirsPass σ artists).1.map Prod.fst).Nodup := by
      rw [hkeys]; exact hnd
    have hlen : (initDirsPass σ artists).1.length = artists.length := by
      have := congrArg List.length hkeys
      simpa using this
    rw [remove_length_eq_filter, ← hlen]
    exact filter_ne_key_length _ aid hnd' hmem'

def c10Artist : ArtistW3 :=
  { aid := 0, name := "Bad\\Name", url := "u",
    resume_target := (some (-1), some (-1)), storage_dir := "d",
    scrape_status := .stage_zero }

/-- A filesystem on which every directory creation fails. -/
def c10AlwaysFail : Int → ArtistW3 → Bool := fun _ _ => false

theorem C10_init_dirs_loop_terminates_witness :
    (init_artists_storage_dirs c10AlwaysFail ([(0, c10Artist)].length + 1)
      [(0, c10Artist)]).isSome = true
    ∧ ∀ aid, (initDirsPass c10AlwaysFail [(0, c10Artist)]).2 = some aid →
        (remove_artist_from_metadata
          (initDirsPass c10AlwaysFail [(0, c10Artist)]).1 aid).length + 1 =
          [(0, c10Artist)].length :=
  C10_init_dirs_loop_terminates c10AlwaysFail [(0, c10Artist)] (by decide)

/-! ### Stage monotonicity (C3)

`init_artists_storage_dirs` only ever advances `stage_zero` artists to
`stage_one` (guarded by the `== stage_zero` check, lines 599-607).  But
the directory-initialization step inside `scrape_albums` (lines
639-650) assigns `stage_one` to any artist that is not at
`stage_three`, regressing a `stage_two` artist. -/

/-- The per-artist directory-initialization step of `scrape_albums`
(WebScraperThree.py lines 639-650): artists at `stage_three` are
skipped; otherwise a successful `init_artist_storage_dir` assigns
`scrape_status = stage_one` unconditionally, and a failure requests the
artist's removal (modelled `none`). -/
def scrape_albums_dir_init_step (dirOk : Bool) (a : ArtistW3) :
    Option ArtistW3 :=
  if a.scrape_status = ScraperStatus.stage_three then some a
  else if dirOk then some { a with scrape_status := ScraperStatus.stage_one }
  else none

def c3StageTwoArtist : ArtistW3 :=
  { aid := 0, name := "2Pac", url := "u",
    resume_target := (some (-1), some (-1)), storage_dir := "d",
    scrape_status := .stage_two }

/-- Claim C3, counterexample: re-running the `scrape_albums`
directory-initialization step on an artist already at `stage_two` does
not leave the stage unchanged — it moves it back to `stage_one`, a
strictly earlier value in the stage order. -/
theorem C3_dir_init_regresses_stage :
    (scrape_albums_dir_init_step true c3StageTwoArtist).map
        (fun a => a.scrape_status) = some ScraperStatus.stage_one
    ∧ ScraperStatus.stage_one.value < c3StageTwoArtist.scrape_status.value := by
  refine ⟨by decide, by decide⟩

/-- Claim C3 (amended): an `init_artists_storage_dirs` pass never moves
any artist's stage backwards — it preserves keys and order, advances
only `stage_zero` artists, and leaves every other record untouched —
but the `scrape_albums` directory-initialization step regresses a
`stage_two` artist to `stage_one` by re-assigning an already-passed
stage instead of leaving it unchanged. -/
theorem C3_stage_monotonicity (σ : Int → ArtistW3 → Bool)
    (artists : List (Int × ArtistW3)) :
    List.Forall₂
      (fun p q : Int × ArtistW3 =>
        p.1 = q.1 ∧ p.2.scrape_status.value ≤ q.2.scrape_status.value
          ∧ (p.2.scrape_status ≠ ScraperStatus.stage_zero → q.2 = p.2))
      artists (initDirsPass σ artists).1
    ∧ (scrape_albums_dir_init_step true c3StageTwoArtist).map
        (fun a => a.scrape_status) = some ScraperStatus.stage_one := by
  constructor
  · induction artists with
    | nil => exact List.Forall₂.nil
    | cons hd tl ih =>
      obtain ⟨aid, a⟩ := hd
      by_cases h1 : a.scrape_status = ScraperStatus.stage_zero
      · by_cases h2 : σ aid a
        · simp only [initDirsPass, if_pos h1, if_pos h2]
          refine List.Forall₂.cons ⟨rfl, ?_, ?_⟩ ih
          · rw [h1]
            show ScraperStatus.stage_zero.value ≤ ScraperStatus.stage_one.value
            decide
          · intro hne
            exact absurd h1 hne
        · simp only [initDirsPass, if_pos h1, if_neg h2]
          refine List.forall₂_same.mpr ?_
          intro x _
          exact ⟨rfl, le_refl _, fun _ => rfl⟩
      · simp only [initDirsPass, if_neg h1]
        exact List.Forall₂.cons ⟨rfl, le_refl _, fun _ => rfl⟩ ih
  · decide

end RapBot
